import Mathlib

/-!
Shallow embedding of the pyBGP core (Kent1/pyBGP) in Lean 4.

The Python sources embedded here are:
  pybgp/bgp/message/open.py            (class Open)
  pybgp/bgp/message/keepalive.py       (class KeepAlive)
  pybgp/bgp/message/notification.py    (class Notification and subclasses)
  pybgp/bgp/message/update/update.py   (classes Update, IPField)
  pybgp/bgp/message/update/path_attribute.py
  pybgp/bgp/server.py                  (class BGP)

The package modules pybgp/bgp/__init__.py and pybgp/bgp/message/__init__.py
(which define the State constants, the base Message class with header_unpack,
and OpenFactory) are not present under src/; those pieces are modelled from
the specification and are marked with a doc comment starting
"Modelled from the spec:".

Python byte strings are modelled as List Nat (each element an octet value),
Python exceptions as an error enumeration PyExc, and fields that may
dynamically hold either an int or a byte string as PyVal.
-/

namespace PyBGP

/-- Python exception outcomes that the embedded code can raise.
structError models struct.error from the struct module (wrong buffer size on
unpack, out-of-range or non-integer argument on pack); typeError models a
TypeError such as a constructor-arity mismatch from cls(#args); exception
models a bare raise Exception; attributeError models calling a method on
None; openError carries the subcode of an OpenError notification raised by
the (modelled) OPEN validator. -/
inductive PyExc where
  | structError
  | typeError
  | exception
  | attributeError
  | notSynchronized
  | openError (subcode : Nat)
deriving DecidableEq, Repr

/-- A dynamically typed Python value as stored in attribute or prefix fields:
either an int (only non-negative ints occur in this code base) or a byte
string. IPField.unpack stores the raw result of struct.unpack, a 1-tuple
holding a byte string; since the only operation the code ever applies to it
is struct.pack with an integer format (which fails on tuple and string
alike), the tuple wrapper is modelled as the bytes constructor. -/
inductive PyVal where
  | int (n : Nat)
  | bytes (s : List Nat)
deriving DecidableEq, Repr

/-- Big-endian 2-octet encoding, as struct.pack with format !H on a value
already checked to be below 2^16. -/
def u16be (n : Nat) : List Nat := [n / 256, n % 256]

/-- Big-endian 4-octet encoding, as struct.pack with format !I on a value
already checked to be below 2^32. -/
def u32be (n : Nat) : List Nat :=
  [n / 16777216, n / 65536 % 256, n / 256 % 256, n % 256]

/-- Big-endian 2-octet decoding of two octet values. -/
def readU16 (b0 b1 : Nat) : Nat := 256 * b0 + b1

/-- Big-endian 4-octet decoding applied to the first four elements of a
list of octets. -/
def readU32 (l : List Nat) : Nat :=
  16777216 * l.getD 0 0 + 65536 * l.getD 1 0 + 256 * l.getD 2 0 + l.getD 3 0

/-- Decode a byte string as a sequence of big-endian 2-octet integers, as
struct.unpack with format !nH (the buffer length is checked by callers). -/
def readU16s : List Nat → List Nat
  | b0 :: b1 :: rest => readU16 b0 b1 :: readU16s rest
  | _ => []

namespace Message

/-- The fixed 16-octet marker, chr(0xFF) * 16. -/
def marker : List Nat := List.replicate 16 0xFF

/-- Modelled from the spec: the base Message.pack of the missing package
module pybgp/bgp/message/__init__.py. It emits the 19-octet header: marker,
the declared message length (the per-class __len__ value, passed here by the
subclass) as a big-endian u16, and the type octet. struct raises on
out-of-range values. -/
def pack (len ty : Nat) : Except PyExc (List Nat) :=
  if len < 65536 ∧ ty < 256 then
    .ok (marker ++ u16be len ++ [ty])
  else
    .error .structError

/-- Modelled from the spec: Message.header_unpack of the missing package
module, used by Update.unpack and BGP.dataReceived. Per spec section 3 the
header is 16 marker octets (any other value is a framing error,
ConnectionNotSynchronized), a big-endian u16 length and a type octet; fewer
than 19 octets is a struct error. It returns the pair (length, type). -/
def header_unpack (msg : List Nat) : Except PyExc (Nat × Nat) :=
  if msg.length < 19 then .error .structError
  else if msg.take 16 ≠ marker then .error .notSynchronized
  else .ok (readU16 (msg.getD 16 0) (msg.getD 17 0), msg.getD 18 0)

end Message

namespace KeepAlive

/-- KeepAlive declared length: the base MIN_LEN of 19 octets (the class adds
no fields and no __len__ of its own). -/
def len : Nat := 19

/-- KeepAlive().pack(): the bare 19-octet header with type 4. -/
def pack : Except PyExc (List Nat) := Message.pack len 4

end KeepAlive

/-- The bytes of a packed KEEPALIVE message. -/
def kaBytes : List Nat := Message.marker ++ [0, 19, 4]

namespace Notification

/-- Notification state: error code, error subcode and data octets, as the
constructor of class Notification stores them. -/
structure T where
  error_code : Nat
  error_subcode : Nat
  data : List Nat
deriving DecidableEq, Repr

/-- Notification.__len__: MIN_LEN (21) plus the data length. -/
def len (n : T) : Nat := 21 + n.data.length

/-- Notification.pack: header, error code octet, error subcode octet, data. -/
def pack (n : T) : Except PyExc (List Nat) := do
  let hdr ← Message.pack (len n) 3
  if n.error_code < 256 ∧ n.error_subcode < 256 then
    .ok (hdr ++ [n.error_code] ++ [n.error_subcode] ++ n.data)
  else
    .error .structError

end Notification

namespace Open

/-- OPEN message state as the constructor of class Open stores it: the
constructor ignores any received version and always sets version = 4. -/
structure T where
  version : Nat
  asn : Nat
  hold_time : Nat
  router_id : Nat
  capabilities : List Nat
deriving DecidableEq, Repr

/-- Open.__init__(asn, hold_time, router_id, capabilities): version is
hard-coded to 4. -/
def init (asn hold_time router_id : Nat) (capabilities : List Nat) : T :=
  ⟨4, asn, hold_time, router_id, capabilities⟩

/-- Open.__len__: MIN_LEN (29) plus the number of entries of the
capabilities list (len of a Python list counts elements). -/
def len (o : T) : Nat := 29 + o.capabilities.length

/-- Open.pack: header, then struct.pack of version/asn/hold_time (format
!BHH), then router_id and the capability count (format !IB). The
capabilities themselves are never emitted (marked TODO in the source), so
the body is always exactly 10 octets. -/
def pack (o : T) : Except PyExc (List Nat) := do
  let hdr ← Message.pack (len o) 1
  if o.version < 256 ∧ o.asn < 65536 ∧ o.hold_time < 65536 ∧
      o.router_id < 4294967296 ∧ o.capabilities.length < 256 then
    .ok (hdr ++ [o.version] ++ u16be o.asn ++ u16be o.hold_time ++
         u32be o.router_id ++ [o.capabilities.length])
  else
    .error .structError

/-- Open.unpack: reads the header (raising a bare Exception when the type
octet is not OPEN), then struct.unpack of msg[19:28] with format !BHHI and
of msg[28:29] with format !B (both raise struct.error when the slice is
short, hence the message must have at least 29 octets). The parsed version
octet is discarded: the result is built by cls(asn, hold_time, router_id),
whose constructor forces version = 4 and capabilities = []. The read of the
capability-length octet feeds an if whose body is pass. -/
def unpack (msg : List Nat) : Except PyExc T := do
  let (_length, ty) ← Message.header_unpack msg
  if ty ≠ 1 then
    .error .exception
  else if msg.length < 29 then
    .error .structError
  else
    let asn := readU16 (msg.getD 20 0) (msg.getD 21 0)
    let hold_time := readU16 (msg.getD 22 0) (msg.getD 23 0)
    let router_id := readU32 (msg.drop 24)
    .ok (init asn hold_time router_id [])

end Open

namespace IPField

/-- IPField state: the prefix length in bits and the prefix field, which
holds an int when built by user code and a byte string when built by
unpack. The octects attribute stored by __init__ is a function of length
and is exposed below as octects. -/
structure T where
  length : Nat
  pfx : PyVal
deriving DecidableEq, Repr

/-- IPField.number_octets: the Python 2 expression ((length - 1) / 8) + 1
with floor integer division, which yields 0 when length = 0. -/
def number_octets (length : Nat) : Nat :=
  (((length : Int) - 1).fdiv 8 + 1).toNat

/-- The octects attribute set by IPField.__init__. -/
def octects (f : T) : Nat := number_octets f.length

/-- IPField.__len__: octects + 1. -/
def len (f : T) : Nat := octects f + 1

/-- IPField.pack: struct.pack of (length, prefix) with format !BI, truncated
to the first 1 + octects octets, keeping the high-order octets of the
4-octet big-endian prefix. The format requires prefix to be an int below
2^32 and length to fit one octet; a byte-string prefix (as produced by
unpack) makes struct raise. -/
def pack (f : T) : Except PyExc (List Nat) :=
  match f.pfx with
  | .int p =>
      if f.length < 256 ∧ p < 4294967296 then
        .ok ((f.length :: u32be p).take (1 + octects f))
      else
        .error .structError
  | .bytes _ => .error .structError

/-- IPField.unpack: reads the length octet (struct.error when the input is
empty), computes number_octets, and reads exactly that many prefix octets
with a !ns string format (struct.error when fewer are available). The
result of struct.unpack, a tuple holding the octet string, is stored
unconverted as the prefix. -/
def unpack (packed : List Nat) : Except PyExc T :=
  if packed.length < 1 then .error .structError
  else
    let length := packed.getD 0 0
    let number := number_octets length
    let s := (packed.drop 1).take number
    if s.length ≠ number then .error .structError
    else .ok ⟨length, .bytes s⟩

end IPField

-- Attribute flag constants of class Flag.
namespace Flag

def OPTIONAL : Nat := 128

def TRANSITIVE : Nat := 64

def PARTIAL : Nat := 32

def EXTEND_LENGTH : Nat := 16

end Flag

namespace ASPathSegment

/-- An AS path segment as class ASPath.ASPathSegment stores it: a segment
type and the list of AS numbers. -/
structure T where
  type : Nat
  value : List Nat
deriving DecidableEq, Repr

/-- ASPathSegment.__len__: 2 + 2 * number of AS numbers. -/
def len (s : T) : Nat := 2 + 2 * s.value.length

/-- ASPathSegment.pack: the type octet, the AS count octet, then each AS
number as a big-endian u16 (struct raises on out-of-range values). -/
def pack (s : T) : Except PyExc (List Nat) :=
  if s.type < 256 ∧ s.value.length < 256 ∧ s.value.all (· < 65536) then
    .ok ([s.type, s.value.length] ++ (s.value.map u16be).flatten)
  else
    .error .structError

/-- ASPathSegment.unpack: struct.unpack of the first two octets with format
!BB (struct.error when fewer are available), then exactly 2 * count octets
of AS numbers with format !nH (struct.error when the slice is short). -/
def unpack (packed : List Nat) : Except PyExc T :=
  if packed.length < 2 then .error .structError
  else
    let ty := packed.getD 0 0
    let n := packed.getD 1 0
    let s := (packed.drop 2).take (2 * n)
    if s.length ≠ 2 * n then .error .structError
    else .ok ⟨ty, readU16s s⟩

end ASPathSegment

/-- A path attribute as one of the subclasses of class PathAttribute stores
it. Each subclass fixes its flags, type code and length function in its
constructor; the constructors of Origin, NextHop, MED and LocalPref accept
whatever value unpacking produced (an int in the well-formed cases, a byte
string otherwise), hence the PyVal payloads. The Aggregator constructor
takes the AS number and the IP address as ints; its composite value
attribute is the separate definition Aggregator.value below. -/
inductive PathAttr where
  | origin (value : PyVal)
  | asPath (value : List ASPathSegment.T)
  | nextHop (value : PyVal)
  | med (value : PyVal)
  | localPref (value : PyVal)
  | atomicAggregate
  | aggregator (asn ip : Nat)
deriving DecidableEq, Repr

namespace Aggregator

/-- The value attribute stored by Aggregator.__init__: the source expression
is asn << 32 + self.ip, and Python operator precedence parses it as
asn << (32 + ip), not as the intended (asn << 32) + ip. The overridden
Aggregator._value_pack never reads this attribute. -/
def value (asn ip : Nat) : Nat := asn <<< (32 + ip)

end Aggregator

namespace PathAttr

/-- The flags set by each subclass constructor. -/
def flags : PathAttr → Nat
  | .origin _ => Flag.TRANSITIVE
  | .asPath _ => Flag.TRANSITIVE
  | .nextHop _ => Flag.TRANSITIVE
  | .med _ => Flag.OPTIONAL
  | .localPref _ => Flag.TRANSITIVE
  | .atomicAggregate => Flag.TRANSITIVE
  | .aggregator _ _ => Flag.OPTIONAL ||| Flag.TRANSITIVE

/-- The type code set by each subclass constructor. -/
def type_code : PathAttr → Nat
  | .origin _ => 1
  | .asPath _ => 2
  | .nextHop _ => 3
  | .med _ => 4
  | .localPref _ => 5
  | .atomicAggregate => 6
  | .aggregator _ _ => 7

/-- The length function passed by each subclass constructor (a lambda in
the source): a constant for every kind except AS_PATH, whose lambda sums
the lengths of its segments. -/
def lengthFun : PathAttr → Nat
  | .origin _ => 1
  | .asPath segs => (segs.map ASPathSegment.len).sum
  | .nextHop _ => 4
  | .med _ => 4
  | .localPref _ => 4
  | .atomicAggregate => 0
  | .aggregator _ _ => 6

/-- PathAttribute.__len__: 2 octets of flags and type code, 1 or 2 length
octets depending on the EXTEND_LENGTH flag, plus the value length. -/
def len (a : PathAttr) : Nat :=
  2 + (if a.flags &&& Flag.EXTEND_LENGTH ≠ 0 then 2 else 1) + a.lengthFun

/-- PathAttribute._value_pack, the generic value serializer used by every
kind that does not override it: dispatches on the length-function result
(0, 1, 2 or 4 octets, any other length raises a bare Exception); struct
raises on a non-int or out-of-range value. -/
def genericValuePack (length : Nat) (v : PyVal) : Except PyExc (List Nat) :=
  if length = 0 then .ok []
  else if length = 1 then
    match v with
    | .int n => if n < 256 then .ok [n] else .error .structError
    | .bytes _ => .error .structError
  else if length = 2 then
    match v with
    | .int n => if n < 65536 then .ok (u16be n) else .error .structError
    | .bytes _ => .error .structError
  else if length = 4 then
    match v with
    | .int n => if n < 4294967296 then .ok (u32be n) else .error .structError
    | .bytes _ => .error .structError
  else .error .exception

/-- Serialize the list of path attribute value octets: generic for most
kinds, overridden by ASPath (concatenation of packed segments) and by
Aggregator (the AS number as u16 then the IP as u32, regardless of the
composite value attribute). -/
def value_pack : PathAttr → Except PyExc (List Nat)
  | .origin v => genericValuePack 1 v
  | .asPath segs => do
      let packs ← segs.mapM ASPathSegment.pack
      .ok packs.flatten
  | .nextHop v => genericValuePack 4 v
  | .med v => genericValuePack 4 v
  | .localPref v => genericValuePack 4 v
  | .atomicAggregate => .ok []
  | .aggregator asn ip =>
      if asn < 65536 ∧ ip < 4294967296 then
        .ok (u16be asn ++ u32be ip)
      else .error .structError

/-- PathAttribute.pack: flags octet, type code octet, the value length in 1
or 2 octets per the EXTEND_LENGTH flag, then the packed value. -/
def pack (a : PathAttr) : Except PyExc (List Nat) := do
  if a.flags < 256 ∧ a.type_code < 256 then
    let lenBytes ←
      if a.flags &&& Flag.EXTEND_LENGTH ≠ 0 then
        if a.lengthFun < 65536 then pure (u16be a.lengthFun)
        else Except.error PyExc.structError
      else
        if a.lengthFun < 256 then pure [a.lengthFun]
        else Except.error PyExc.structError
    let vb ← a.value_pack
    .ok ([a.flags, a.type_code] ++ lenBytes ++ vb)
  else .error .structError

end PathAttr

namespace PathAttribute

/-- PathAttribute.header_unpack: struct.unpack of flags and type code with
format !BB, then the value length in one octet, or two octets when the
EXTEND_LENGTH flag is set (struct.error when the input is too short). -/
def header_unpack (pa : List Nat) : Except PyExc (Nat × Nat × Nat) :=
  if pa.length < 2 then .error .structError
  else
    let fl := pa.getD 0 0
    let tc := pa.getD 1 0
    if fl &&& Flag.EXTEND_LENGTH ≠ 0 then
      if pa.length < 4 then .error .structError
      else .ok (fl, tc, readU16 (pa.getD 2 0) (pa.getD 3 0))
    else
      if pa.length < 3 then .error .structError
      else .ok (fl, tc, pa.getD 2 0)

/-- The value slice taken by the inherited PathAttribute.unpack:
path_attr[header_length : header_length + value_length]. When fewer octets
are available the slice is silently shorter than the declared length. -/
def valueSlice (pa : List Nat) (fl length : Nat) : List Nat :=
  let hl := 2 + (if fl &&& Flag.EXTEND_LENGTH ≠ 0 then 2 else 1)
  (pa.drop hl).take length

/-- PathAttribute.value_unpack, the generic value decoder: dispatches on
the actual slice length (not the declared one): the empty string for 0
octets, a 1-tuple holding a u8, u16 or u32 for 1, 2 or 4 octets, and a
1-tuple holding the raw string otherwise. The result is splatted into the
subclass constructor, so it is modelled as the argument list that
cls(value) receives. -/
def value_unpack (value : List Nat) : List PyVal :=
  if value.length = 0 then []
  else if value.length = 1 then [.int (value.getD 0 0)]
  else if value.length = 2 then [.int (readU16 (value.getD 0 0) (value.getD 1 0))]
  else if value.length = 4 then [.int (readU32 value)]
  else [.bytes value]

end PathAttribute

namespace Origin

/-- Origin.unpack (the inherited PathAttribute.unpack with the generic
value decoder): Origin.__init__ takes exactly one value argument, so any
other argument count raises a TypeError. -/
def unpack (pa : List Nat) : Except PyExc PathAttr := do
  let (fl, _tc, length) ← PathAttribute.header_unpack pa
  match PathAttribute.value_unpack (PathAttribute.valueSlice pa fl length) with
  | [v] => .ok (.origin v)
  | _ => .error .typeError

end Origin

namespace NextHop

/-- NextHop.unpack: inherited PathAttribute.unpack, one-argument
constructor. -/
def unpack (pa : List Nat) : Except PyExc PathAttr := do
  let (fl, _tc, length) ← PathAttribute.header_unpack pa
  match PathAttribute.value_unpack (PathAttribute.valueSlice pa fl length) with
  | [v] => .ok (.nextHop v)
  | _ => .error .typeError

end NextHop

namespace MED

/-- MED.unpack: inherited PathAttribute.unpack, one-argument constructor. -/
def unpack (pa : List Nat) : Except PyExc PathAttr := do
  let (fl, _tc, length) ← PathAttribute.header_unpack pa
  match PathAttribute.value_unpack (PathAttribute.valueSlice pa fl length) with
  | [v] => .ok (.med v)
  | _ => .error .typeError

end MED

namespace LocalPref

/-- LocalPref.unpack: inherited PathAttribute.unpack, one-argument
constructor. -/
def unpack (pa : List Nat) : Except PyExc PathAttr := do
  let (fl, _tc, length) ← PathAttribute.header_unpack pa
  match PathAttribute.value_unpack (PathAttribute.valueSlice pa fl length) with
  | [v] => .ok (.localPref v)
  | _ => .error .typeError

end LocalPref

namespace AtomicAggregate

/-- AtomicAggregate.unpack: inherited PathAttribute.unpack; the
constructor takes no arguments, so it succeeds exactly when the value
slice is empty (splatting an empty string passes zero arguments). -/
def unpack (pa : List Nat) : Except PyExc PathAttr := do
  let (fl, _tc, length) ← PathAttribute.header_unpack pa
  match PathAttribute.value_unpack (PathAttribute.valueSlice pa fl length) with
  | [] => .ok .atomicAggregate
  | _ => .error .typeError

end AtomicAggregate

namespace ASPath

/-- ASPath.value_unpack, fuel variant: decode segments greedily while the
value is non-empty, advancing by the decoded segment length (always at
least 2, so a fuel of the value length suffices and the fuel-exhausted arm
is unreachable from the wrapper below). -/
def value_unpackF : Nat → List Nat → Except PyExc (List ASPathSegment.T)
  | _, [] => .ok []
  | 0, _ :: _ => .error .exception
  | fuel + 1, v@(_ :: _) => do
      let seg ← ASPathSegment.unpack v
      let rest ← value_unpackF fuel (v.drop (ASPathSegment.len seg))
      .ok (seg :: rest)

/-- ASPath.value_unpack: the segment loop of the source. It returns the
segment list wrapped in a singleton list, which the splat into
ASPath.__init__ unwraps again; the wrapper is elided here. -/
def value_unpack (value : List Nat) : Except PyExc (List ASPathSegment.T) :=
  value_unpackF value.length value

/-- ASPath.unpack: inherited PathAttribute.unpack with the overridden
segment-list value decoder. -/
def unpack (pa : List Nat) : Except PyExc PathAttr := do
  let (fl, _tc, length) ← PathAttribute.header_unpack pa
  let segs ← value_unpack (PathAttribute.valueSlice pa fl length)
  .ok (.asPath segs)

end ASPath

namespace Aggregator

/-- Aggregator.unpack: inherited PathAttribute.unpack with the overridden
value decoder struct.unpack format !HI, which requires exactly six octets
and yields the (asn, ip) pair splatted into Aggregator.__init__. -/
def unpack (pa : List Nat) : Except PyExc PathAttr := do
  let (fl, _tc, length) ← PathAttribute.header_unpack pa
  let v := PathAttribute.valueSlice pa fl length
  if v.length = 6 then
    .ok (.aggregator (readU16 (v.getD 0 0) (v.getD 1 0)) (readU32 (v.drop 2)))
  else .error .structError

end Aggregator

namespace PathAttribute

/-- PathAttribute.create: read the attribute header and dispatch on the
type code to the subclass unpack; an unknown type code raises a bare
Exception. -/
def create (pa : List Nat) : Except PyExc PathAttr := do
  let (_fl, tc, _length) ← header_unpack pa
  if tc = 1 then Origin.unpack pa
  else if tc = 2 then ASPath.unpack pa
  else if tc = 3 then NextHop.unpack pa
  else if tc = 4 then MED.unpack pa
  else if tc = 5 then LocalPref.unpack pa
  else if tc = 6 then AtomicAggregate.unpack pa
  else if tc = 7 then Aggregator.unpack pa
  else .error .exception

end PathAttribute

namespace Update

/-- UPDATE message state as class Update stores it: withdrawn routes, path
attributes and NLRI prefixes. -/
structure T where
  wd_routes : List IPField.T
  path_attr : List PathAttr
  nlris : List IPField.T
deriving DecidableEq, Repr

/-- Update.MIN_LEN. -/
def MIN_LEN : Nat := 23

/-- Update.__len__: MIN_LEN plus the summed __len__ of the withdrawn
routes, of the path attributes and of the NLRI prefixes. -/
def len (u : T) : Nat :=
  MIN_LEN + (u.wd_routes.map IPField.len).sum +
    (u.path_attr.map PathAttr.len).sum + (u.nlris.map IPField.len).sum

/-- Update.pack: header, the summed withdrawn length as u16, the packed
withdrawn routes, the summed attribute length as u16, the packed
attributes, then the packed NLRI prefixes. -/
def pack (u : T) : Except PyExc (List Nat) := do
  let hdr ← Message.pack (len u) 2
  let wdLen := (u.wd_routes.map IPField.len).sum
  if wdLen ≥ 65536 then .error .structError else
  let wd ← u.wd_routes.mapM IPField.pack
  let paLen := (u.path_attr.map PathAttr.len).sum
  if paLen ≥ 65536 then .error .structError else
  let pas ← u.path_attr.mapM PathAttr.pack
  let nl ← u.nlris.mapM IPField.pack
  .ok (hdr ++ u16be wdLen ++ wd.flatten ++ u16be paLen ++ pas.flatten ++
       nl.flatten)

/-- The withdrawn-routes and NLRI loops of Update.unpack, fuel variant:
decode IP-prefix entries greedily while the slice is non-empty, advancing
by the decoded field length (always at least 1, so a fuel of the slice
length suffices and the fuel-exhausted arm is unreachable from the wrapper
below). -/
def decodeIPFieldsF : Nat → List Nat → Except PyExc (List IPField.T)
  | _, [] => .ok []
  | 0, _ :: _ => .error .exception
  | fuel + 1, l@(_ :: _) => do
      let f ← IPField.unpack l
      let rest ← decodeIPFieldsF fuel (l.drop (IPField.len f))
      .ok (f :: rest)

/-- Greedy IP-prefix decoding of one slice. -/
def decodeIPFields (l : List Nat) : Except PyExc (List IPField.T) :=
  decodeIPFieldsF l.length l

/-- The path-attribute loop of Update.unpack, fuel variant: call
PathAttribute.create while the slice is non-empty, advancing by the
__len__ of the created attribute object (its canonical length, at least 3,
so a fuel of the slice length suffices). -/
def decodePathAttrsF : Nat → List Nat → Except PyExc (List PathAttr)
  | _, [] => .ok []
  | 0, _ :: _ => .error .exception
  | fuel + 1, l@(_ :: _) => do
      let a ← PathAttribute.create l
      let rest ← decodePathAttrsF fuel (l.drop (PathAttr.len a))
      .ok (a :: rest)

/-- Greedy path-attribute decoding of one slice. -/
def decodePathAttrs (l : List Nat) : Except PyExc (List PathAttr) :=
  decodePathAttrsF l.length l

/-- struct.unpack with format !H of a 2-octet slice taken with msg[:2];
struct.error when fewer than 2 octets were available. -/
def unpackU16 (l : List Nat) : Except PyExc Nat :=
  if l.length = 2 then .ok (readU16 (l.getD 0 0) (l.getD 1 0))
  else .error .structError

/-- Update.unpack: reads the header, the withdrawn length and greedily the
withdrawn prefix entries from exactly that slice, the attribute length and
greedily the attributes from that slice, then greedily NLRI entries from
msg[:length] of the remainder. No validation relates the declared lengths
to each other or to the header length; the only failures are the struct
and dispatch errors raised by the greedy loops themselves. -/
def unpack (msg : List Nat) : Except PyExc T := do
  let (length, _ty) ← Message.header_unpack msg
  let msg1 := msg.drop 19
  let wd_len ← unpackU16 (msg1.take 2)
  let wd_routes ← decodeIPFields ((msg1.drop 2).take wd_len)
  let msg2 := msg1.drop (2 + wd_len)
  let pa_len ← unpackU16 (msg2.take 2)
  let path_attrs ← decodePathAttrs ((msg2.drop 2).take pa_len)
  let msg3 := msg2.drop (2 + pa_len)
  let nlris ← decodeIPFields (msg3.take length)
  .ok ⟨wd_routes, path_attrs, nlris⟩

end Update

-- The per-connection FSM of pybgp/bgp/server.py, class BGP.

/-- Modelled from the spec: the State constants of the missing module
pybgp/bgp/__init__.py, the six FSM states of spec section 4.3 (server.py
uses IDLE, ACTIVE, OPENSENT and OPENCONFIRM). -/
inductive State where
  | IDLE
  | CONNECT
  | ACTIVE
  | OPENSENT
  | OPENCONFIRM
  | ESTABLISHED
deriving DecidableEq, Repr

/-- The peer classification stored in the status attribute of class BGP:
None at construction, then the string internal or external. -/
inductive PeerStatus where
  | unset
  | internal
  | external
deriving DecidableEq, Repr

/-- The mutable state of one BGP protocol instance, class BGP of server.py.
The twisted timers are modelled by their observable state: the LoopingCall
keepalive_timer by whether it is running and with which period in seconds,
the callLater handle hold_timer by the delay it was last scheduled with
(none both before connectionMade and to model Python None). Octet strings
written to the transport are collected in sent. -/
structure BGPConn where
  state : State
  status : PeerStatus
  buffer : List Nat
  asn : Nat
  hold_time : Nat
  router_id : Nat
  keepalive_running : Bool
  keepalive_interval : Option Nat
  hold_timer : Option Nat
  sent : List (List Nat)
deriving DecidableEq, Repr

namespace BGP

/-- BGP.__init__(asn, hold_time, router_id): state is set to IDLE and then
immediately to ACTIVE; the keepalive LoopingCall is created but not
started; hold_timer is None; the receive buffer is empty. -/
def init (asn hold_time router_id : Nat) : BGPConn :=
  { state := .ACTIVE
    status := .unset
    buffer := []
    asn := asn
    hold_time := hold_time
    router_id := router_id
    keepalive_running := false
    keepalive_interval := none
    hold_timer := none
    sent := [] }

/-- BGP.connectionMade: in ACTIVE, send an OPEN built from the local
configuration, schedule the hold timer 240 seconds out, and move to
OPENSENT; in any other state do nothing. -/
def connectionMade (c : BGPConn) : Except PyExc BGPConn :=
  if c.state = .ACTIVE then do
    let ob ← Open.pack (Open.init c.asn c.hold_time c.router_id [])
    .ok { c with
      sent := c.sent ++ [ob]
      hold_timer := some 240
      state := .OPENSENT }
  else .ok c

/-- Modelled from the spec: message.OpenFactory, called by handle_open and
absent from src/. Per spec sections 3 and 4.3 it validates a parsed OPEN:
a version other than 4 raises OpenError/UnsupportedVersionNumber (2, 1)
and a hold time in the open interval (0, 3) raises
OpenError/UnacceptableHoldTime (2, 6); otherwise the message is returned
unchanged. -/
def OpenFactory (o : Open.T) : Except PyExc Open.T :=
  if o.version ≠ 4 then .error (.openError 1)
  else if 0 < o.hold_time ∧ o.hold_time < 3 then .error (.openError 6)
  else .ok o

/-- The try/except pass around the OpenFactory call in handle_open: when
validation raises, the exception is swallowed and the local variable keeps
the unvalidated message. -/
def tryOpenFactory (p : Open.T) : Open.T :=
  match OpenFactory p with
  | .ok m => m
  | .error _ => p

/-- BGP.handle_open: unpack the OPEN (exceptions propagate). In OPENSENT:
run OpenFactory inside try/except pass, so validation failures are
swallowed and the unvalidated message is kept; send a KEEPALIVE; lower the
local hold_time to the received one if larger (negotiated minimum); when
the negotiated hold time is non-zero, start the keepalive LoopingCall with
a period of 1.0 second (its first call fires immediately, sending a second
KEEPALIVE) and reset the hold timer to the negotiated hold time (resetting
a None hold timer raises AttributeError); classify the peer as internal or
external by AS comparison; move to OPENCONFIRM. In any other state the
parsed message is dropped and nothing changes. -/
def handle_open (c : BGPConn) (msg : List Nat) : Except PyExc BGPConn :=
  match Open.unpack msg with
  | .error e => .error e
  | .ok parsed0 =>
    if c.state = .OPENSENT then
      let parsed := tryOpenFactory parsed0
      let c1 := { c with sent := c.sent ++ [kaBytes] }
      let ht := if c1.hold_time > parsed.hold_time then parsed.hold_time
                else c1.hold_time
      let c2 := { c1 with hold_time := ht }
      if ht ≠ 0 then
        let c3 := { c2 with
          keepalive_running := true
          keepalive_interval := some 1
          sent := c2.sent ++ [kaBytes] }
        match c3.hold_timer with
        | none => .error .attributeError
        | some _ =>
          let c4 := { c3 with hold_timer := some ht }
          .ok { c4 with
            status := if c4.asn = parsed.asn then .internal else .external
            state := .OPENCONFIRM }
      else
        .ok { c2 with
          status := if c2.asn = parsed.asn then .internal else .external
          state := .OPENCONFIRM }
    else .ok c

/-- BGP.dataReceived: append the chunk to the receive buffer; return (do
not dispatch) while fewer than 19 octets are buffered; parse the header of
the first 19 octets; return while fewer than the declared length octets
are buffered; otherwise remove exactly the declared length octets from the
head of the buffer and dispatch them, by type octet, to the matching
handler. At most one message is extracted per call; the dispatched frame
is returned here as the (type, frame) pair handed to the handler, whose
own effects are modelled separately (the handlers never touch the
buffer). -/
def dataReceived (c : BGPConn) (data : List Nat) :
    Except PyExc (BGPConn × Option (Nat × List Nat)) :=
  let buf := c.buffer ++ data
  if buf.length < 19 then .ok ({ c with buffer := buf }, none)
  else
    match Message.header_unpack (buf.take 19) with
    | .error e => .error e
    | .ok (length, ty) =>
      if buf.length < length then .ok ({ c with buffer := buf }, none)
      else .ok ({ c with buffer := buf.drop length }, some (ty, buf.take length))

/-- Deliver a sequence of chunks to dataReceived, one call per chunk,
collecting the dispatched (type, frame) pairs in order. -/
def processChunks : BGPConn → List (List Nat) → Except PyExc (BGPConn × List (Nat × List Nat))
  | c, [] => .ok (c, [])
  | c, d :: rest => do
      let (c1, ev) ← dataReceived c d
      let (c2, evs) ← processChunks c1 rest
      .ok (c2, ev.toList ++ evs)

end BGP

-- Specification-side reference definitions, used to compare the source
-- behaviour against the words of the spec (sections 3, 4.2 and 8).

/-- Follows the spec's words (section 4.2): framing of a complete byte
stream, as the sequence of frames obtained by repeatedly removing one
length-octet slice from the head; it stops at a buffer that needs more
bytes or fails the marker or minimum-length checks. Fuel variant; each
removed frame has at least 19 octets, so a fuel of the buffer length
suffices. -/
def specFramesF : Nat → List Nat → List (Nat × List Nat)
  | 0, _ => []
  | fuel + 1, buf =>
    if buf.length < 19 then []
    else
      match Message.header_unpack (buf.take 19) with
      | .error _ => []
      | .ok (length, ty) =>
        if length < 19 ∨ buf.length < length then []
        else (ty, buf.take length) :: specFramesF fuel (buf.drop length)

/-- Follows the spec's words: framing of the concatenated stream. -/
def specFraming (buf : List Nat) : List (Nat × List Nat) :=
  specFramesF buf.length buf

/-- Follows the spec's words (section 3 and scenario S5): the on-wire size
of each recognized path attribute: 3 header octets (no recognized
attribute uses an extended length) plus the value size, with each AS path
segment contributing 2 + 2 * (number of AS numbers). -/
def specAttrWireSize : PathAttr → Nat
  | .origin _ => 4
  | .asPath segs => 3 + (segs.map (fun s => 2 + 2 * s.value.length)).sum
  | .nextHop _ => 7
  | .med _ => 7
  | .localPref _ => 7
  | .atomicAggregate => 3
  | .aggregator _ _ => 9

/-- A complete well-formed frame: at least 19 octets, a valid marker, and
a header length field equal to the actual octet count. -/
def wellFormedFrame (m : List Nat) : Prop :=
  19 ≤ m.length ∧ m.take 16 = Message.marker ∧
    readU16 (m.getD 16 0) (m.getD 17 0) = m.length

instance (m : List Nat) : Decidable (wellFormedFrame m) := by
  unfold wellFormedFrame
  infer_instance

-- Concrete example values used by the theorems below.

/-- A 29-octet OPEN from AS 65000, router id 10.0.0.1, hold time 9,
version 4, no optional parameters (scenario S2 with hold time 9). -/
def openMsg9 : List Nat :=
  Message.marker ++ [0, 29, 1, 4, 253, 232, 0, 9, 10, 0, 0, 1, 0]

/-- The same OPEN with hold time 0. -/
def openMsg0 : List Nat :=
  Message.marker ++ [0, 29, 1, 4, 253, 232, 0, 0, 10, 0, 0, 1, 0]

/-- The same OPEN with hold time 3 and version octet 5. -/
def openMsgV5 : List Nat :=
  Message.marker ++ [0, 29, 1, 5, 253, 232, 0, 3, 10, 0, 0, 1, 0]

/-- A connection in OPENSENT with configured hold time 9, as produced by
connectionMade (the OPEN it sent is omitted from sent, which handle_open
only appends to). -/
def connSent9 : BGPConn :=
  { BGP.init 65100 9 167772162 with state := .OPENSENT, hold_timer := some 240 }

/-- A connection in OPENSENT with configured hold time 3. -/
def connSent3 : BGPConn :=
  { BGP.init 65100 3 167772162 with state := .OPENSENT, hold_timer := some 240 }

/-- The state handle_open leaves connSent9 in after receiving openMsg9. -/
def c6res : BGPConn :=
  { connSent9 with
    state := .OPENCONFIRM
    status := .external
    hold_time := 9
    keepalive_running := true
    keepalive_interval := some 1
    hold_timer := some 9
    sent := [kaBytes, kaBytes] }

/-- The state handle_open leaves connSent3 in after receiving openMsg0
(negotiated hold time 0: the keepalive timer is not started and the hold
timer keeps its connectionMade schedule). -/
def c7res : BGPConn :=
  { connSent3 with
    state := .OPENCONFIRM
    status := .external
    hold_time := 0
    sent := [kaBytes] }

/-- An UPDATE whose declared withdrawn length is 1 but whose single
withdrawn octet announces a 24-bit prefix needing three prefix octets:
the withdrawn block does not decompose into whole prefix entries. -/
def updOvershoot : List Nat := Message.marker ++ [0, 24, 2, 0, 1, 24, 0, 0]

/-- An UPDATE whose header length field claims 100 octets while the
message has 24, with empty withdrawn and attribute blocks and a single
zero-length NLRI prefix octet: the three segment lengths do not sum to
length - 23. -/
def updLengthLie : List Nat := Message.marker ++ [0, 100, 2, 0, 0, 0, 0, 0]

-- Theorems.

/-- Python 2 floor division makes number_octets the octet count of the
prefix: the ceiling of the bit length divided by 8. -/
theorem number_octets_eq (b : Nat) : IPField.number_octets b = (b + 7) / 8 := by
  unfold IPField.number_octets
  cases b with
  | zero => decide
  | succ n =>
    have h1 : ((n + 1 : Nat) : Int) - 1 = (n : Int) := by push_cast; ring
    have h2 : (n : Int).fdiv 8 = ((n / 8 : Nat) : Int) := by
      rw [Int.fdiv_eq_tdiv (by positivity) (by norm_num)]
      exact_mod_cast (Int.ofNat_tdiv n 8).symm
    have h3 : (n + 1 + 7) / 8 = n / 8 + 1 := by
      have : n + 1 + 7 = n + 8 := by omega
      rw [this, Nat.add_div_right n (by norm_num)]
    rw [h1, h2, h3]
    omega

/-- The try/except pass wrapper is the identity: OpenFactory either
returns its argument or raises, and raises are swallowed. -/
theorem tryOpenFactory_eq (p : Open.T) : BGP.tryOpenFactory p = p := by
  unfold BGP.tryOpenFactory
  cases h : BGP.OpenFactory p with
  | error e => rfl
  | ok m =>
    unfold BGP.OpenFactory at h
    split at h
    · exact absurd h (by simp)
    · split at h
      · exact absurd h (by simp)
      · simpa using h.symm

/-- The negotiated hold time computed by handle_open is the minimum of the
configured and the received hold times. -/
theorem ite_gt_min (a b : Nat) : (if a > b then b else a) = min a b := by
  split <;> omega

/-- Claim C1: for a well-formed canonical IP-prefix field buffer,
re-encoding the decoded value does not reproduce the buffer; it does not
even produce octets. B = 17 0A 00 00 (10.0.0.0/23) is canonical: 23
prefix bits, exactly ceil(23 / 8) = 3 prefix octets, and the trailing bit
of the last octet zero. IPField.unpack succeeds on it and stores the
three prefix octets as the raw byte string that struct.unpack returned,
and IPField.pack then raises struct.error because its !BI format needs an
integer prefix; the claimed identity pack(unpack(B)) = B therefore fails
on the source. -/
theorem C1_ipfield_roundtrip_code_bug :
    IPField.unpack [23, 10, 0, 0] = .ok ⟨23, .bytes [10, 0, 0]⟩ ∧
    (IPField.unpack [23, 10, 0, 0]).bind IPField.pack = .error .structError ∧
    (IPField.unpack [23, 10, 0, 0]).bind IPField.pack ≠ .ok [23, 10, 0, 0] := by
  refine ⟨rfl, rfl, ?_⟩
  intro h
  have h2 : (IPField.unpack [23, 10, 0, 0]).bind IPField.pack =
      .error .structError := rfl
  exact absurd (h2.symm.trans h) (by simp)

/-- Claim C2: the encoded length of an OPEN with one capability is 29
octets while its declared length is 30: Open.pack never serializes the
capabilities list (TODO in the source) although Open.__len__ counts it,
and the emitted header length field announces the declared 30. -/
theorem C2_open_pack_length_code_bug :
    (Open.pack (Open.init 65000 3 167772161 [0])).map List.length = .ok 29 ∧
    Open.len (Open.init 65000 3 167772161 [0]) = 30 ∧
    Open.pack (Open.init 65000 3 167772161 [0]) =
      .ok (Message.marker ++ [0, 30, 1, 4, 253, 232, 0, 3, 10, 0, 0, 1, 1]) :=
  ⟨rfl, rfl, rfl⟩

/-- Claim C3: an UPDATE whose withdrawn block does not decompose into
whole prefix entries makes Update.unpack raise a bare struct.error, not
UpdateError/MalformedAttributeList; and an UPDATE whose segment lengths
do not sum to length - 23 (header length field 100 on a 24-octet message)
is decoded successfully instead of being rejected. -/
theorem C3_update_unpack_code_bug :
    Update.unpack updOvershoot = .error .structError ∧
    Update.unpack updLengthLie = .ok ⟨[], [], [⟨0, .bytes []⟩]⟩ :=
  ⟨rfl, rfl⟩

/-- Claim C4: an OPEN with version octet 5 is accepted silently:
Open.unpack discards the parsed version (the constructor pins it to 4), so
no validator can ever see the received version, and handle_open in
OPENSENT moves to OPENCONFIRM sending only KEEPALIVEs - no
OpenError/UnsupportedVersionNumber NOTIFICATION is produced. -/
theorem C4_open_version_code_bug :
    Open.unpack openMsgV5 = .ok (Open.init 65000 3 167772161 []) ∧
    (Open.init 65000 3 167772161 []).version = 4 ∧
    (BGP.handle_open connSent3 openMsgV5).map (fun c => (c.state, c.sent)) =
      .ok (.OPENCONFIRM, [kaBytes, kaBytes]) :=
  ⟨rfl, rfl, rfl⟩

/-- On a well-formed frame, header_unpack of the first 19 buffered octets
returns the frame length and the type octet. -/
theorem header_unpack_wf (m : List Nat) (hwf : wellFormedFrame m) :
    Message.header_unpack (m.take 19) = .ok (m.length, m.getD 18 0) := by
  obtain ⟨h19, hmk, hlen⟩ := hwf
  have ht16 : (m.take 19).take 16 = m.take 16 := by
    rw [List.take_take]
    norm_num
  have hg : ∀ i, i < 19 → (m.take 19).getD i 0 = m.getD i 0 := by
    intro i hi
    simp [List.getD_eq_getElem?_getD, List.getElem?_take, hi]
  unfold Message.header_unpack
  rw [List.length_take]
  rw [if_neg (by omega)]
  rw [ht16, hmk]
  rw [if_neg (by simp)]
  rw [hg 16 (by omega), hg 17 (by omega), hg 18 (by omega), hlen]

/-- Delivering exactly one complete well-formed frame to an empty buffer
dispatches that frame and restores the empty buffer. -/
theorem dataReceived_wf (c : BGPConn) (m : List Nat) (hbuf : c.buffer = [])
    (hwf : wellFormedFrame m) :
    BGP.dataReceived c m = .ok (c, some (m.getD 18 0, m)) := by
  have h19 := hwf.1
  unfold BGP.dataReceived
  rw [hbuf, List.nil_append]
  rw [if_neg (by omega)]
  rw [header_unpack_wf m hwf]
  dsimp only
  rw [if_neg (by omega)]
  rw [List.drop_length, List.take_length, ← hbuf]

/-- Claim C5: a single chunk holding two complete KEEPALIVE messages leads
to only the first being dispatched - dataReceived extracts at most one
frame per call, so the dispatched sequence differs from framing the
concatenated stream (which holds both frames), and delivering the same
bytes in one chunk or two chunks dispatches different message counts. -/
theorem C5_framing_counterexample :
    BGP.dataReceived (BGP.init 65100 3 167772162) (kaBytes ++ kaBytes) =
      .ok ({ BGP.init 65100 3 167772162 with buffer := kaBytes },
        some (4, kaBytes)) ∧
    specFraming (kaBytes ++ kaBytes) = [(4, kaBytes), (4, kaBytes)] ∧
    (BGP.processChunks (BGP.init 65100 3 167772162) [kaBytes ++ kaBytes]).map
      (fun p => p.2) = .ok [(4, kaBytes)] ∧
    (BGP.processChunks (BGP.init 65100 3 167772162) [kaBytes, kaBytes]).map
      (fun p => p.2) = .ok [(4, kaBytes), (4, kaBytes)] ∧
    [((4 : Nat), kaBytes)] ≠ [(4, kaBytes), (4, kaBytes)] :=
  ⟨rfl, rfl, rfl, rfl, by simp⟩

/-- Claim C5 (amended): dataReceived dispatches at most one message per
call, in byte order; when every chunk delivered to an empty-buffer
connection is exactly one complete well-formed frame, the dispatched
sequence is exactly the chunk sequence - the framing-equivalence of the
claim holds only for such partitions. -/
theorem C5_one_frame_per_chunk (c : BGPConn) (msgs : List (List Nat))
    (hbuf : c.buffer = []) (hwf : ∀ m ∈ msgs, wellFormedFrame m) :
    BGP.processChunks c msgs = .ok (c, msgs.map (fun m => (m.getD 18 0, m))) := by
  induction msgs with
  | nil => rfl
  | cons m rest ih =>
    have hstep := dataReceived_wf c m hbuf (hwf m (by simp))
    unfold BGP.processChunks
    rw [hstep]
    simp only [bind, Except.bind]
    rw [ih (fun x hx => hwf x (by simp [hx]))]
    rfl

/-- Witness for claim C5: two KEEPALIVEs delivered as two chunks are both
dispatched. -/
theorem C5_one_frame_per_chunk_witness :
    (∀ m ∈ [kaBytes, kaBytes], wellFormedFrame m) ∧
    BGP.processChunks (BGP.init 65100 3 167772162) [kaBytes, kaBytes] =
      .ok (BGP.init 65100 3 167772162, [(4, kaBytes), (4, kaBytes)]) := by
  refine ⟨by decide, ?_⟩
  have h := C5_one_frame_per_chunk (BGP.init 65100 3 167772162)
    [kaBytes, kaBytes] rfl (by decide)
  exact h

/-- In OPENSENT with a scheduled hold timer and a non-zero negotiated hold
time, handle_open sends two KEEPALIVEs, starts the 1-second keepalive
LoopingCall, reschedules the hold timer and moves to OPENCONFIRM. -/
theorem handle_open_opensent_pos (c : BGPConn) (msg : List Nat) (parsed : Open.T)
    (d : Nat)
    (hstate : c.state = .OPENSENT) (hu : Open.unpack msg = .ok parsed)
    (hpos : min c.hold_time parsed.hold_time ≠ 0)
    (htimer : c.hold_timer = some d) :
    BGP.handle_open c msg = .ok
      { c with
        state := .OPENCONFIRM
        status := if c.asn = parsed.asn then .internal else .external
        hold_time := min c.hold_time parsed.hold_time
        keepalive_running := true
        keepalive_interval := some 1
        hold_timer := some (min c.hold_time parsed.hold_time)
        sent := c.sent ++ [kaBytes, kaBytes] } := by
  unfold BGP.handle_open
  rw [hu]
  dsimp only
  rw [if_pos hstate]
  rw [tryOpenFactory_eq]
  rw [ite_gt_min]
  rw [if_pos hpos]
  rw [htimer]
  dsimp only
  rw [List.append_assoc]
  rfl

/-- In OPENSENT with no scheduled hold timer and a non-zero negotiated
hold time, handle_open raises: hold_timer.reset is called on None. -/
theorem handle_open_opensent_pos_noneTimer (c : BGPConn) (msg : List Nat)
    (parsed : Open.T)
    (hstate : c.state = .OPENSENT) (hu : Open.unpack msg = .ok parsed)
    (hpos : min c.hold_time parsed.hold_time ≠ 0)
    (htimer : c.hold_timer = none) :
    BGP.handle_open c msg = .error .attributeError := by
  unfold BGP.handle_open
  rw [hu]
  dsimp only
  rw [if_pos hstate]
  rw [tryOpenFactory_eq]
  rw [ite_gt_min]
  rw [if_pos hpos]
  rw [htimer]

/-- In OPENSENT with a zero negotiated hold time, handle_open sends one
KEEPALIVE, touches no timer, and moves to OPENCONFIRM. -/
theorem handle_open_opensent_zero (c : BGPConn) (msg : List Nat) (parsed : Open.T)
    (hstate : c.state = .OPENSENT) (hu : Open.unpack msg = .ok parsed)
    (hz : min c.hold_time parsed.hold_time = 0) :
    BGP.handle_open c msg = .ok
      { c with
        state := .OPENCONFIRM
        status := if c.asn = parsed.asn then .internal else .external
        hold_time := 0
        sent := c.sent ++ [kaBytes] } := by
  unfold BGP.handle_open
  rw [hu]
  dsimp only
  rw [if_pos hstate]
  rw [tryOpenFactory_eq]
  rw [ite_gt_min]
  rw [hz]
  rw [if_neg (by simp)]

/-- Claim C6: with negotiated hold time 9 (handshake of scenario S6) the
keepalive timer is started with a period of 1 second, not the claimed
9 / 3 = 3 seconds: the source passes the constant 1.0 to
keepalive_timer.start. -/
theorem C6_keepalive_period_counterexample :
    ((BGP.connectionMade (BGP.init 65100 9 167772162)).bind
        (fun c1 => BGP.handle_open c1 openMsg9)).map
      (fun c => (c.hold_time, c.keepalive_interval)) = .ok (9, some 1) ∧
    (9 : Nat) / 3 = 3 ∧
    (some 1 : Option Nat) ≠ some ((9 : Nat) / 3) :=
  ⟨rfl, rfl, by decide⟩

/-- Claim C6 (amended): in OpenSent, upon a valid OPEN with positive
negotiated hold time, the keepalive timer is started with a fixed period
of 1 second regardless of the negotiated value (which satisfies the
1-second floor, but not the hold / 3 rule). -/
theorem C6_keepalive_period_amended (c : BGPConn) (msg : List Nat) (c1 : BGPConn)
    (hstate : c.state = .OPENSENT)
    (hok : BGP.handle_open c msg = .ok c1)
    (hpos : c1.hold_time ≠ 0) :
    c1.keepalive_running = true ∧ c1.keepalive_interval = some 1 := by
  cases hu : Open.unpack msg with
  | error e =>
    unfold BGP.handle_open at hok
    rw [hu] at hok
    exact absurd hok (by simp)
  | ok parsed =>
    by_cases hmin : min c.hold_time parsed.hold_time = 0
    · rw [handle_open_opensent_zero c msg parsed hstate hu hmin] at hok
      have h1 := Except.ok.inj hok
      rw [← h1] at hpos
      exact absurd rfl hpos
    · cases htimer : c.hold_timer with
      | none =>
        rw [handle_open_opensent_pos_noneTimer c msg parsed hstate hu hmin htimer]
          at hok
        exact absurd hok (by simp)
      | some d =>
        rw [handle_open_opensent_pos c msg parsed d hstate hu hmin htimer] at hok
        have h1 := Except.ok.inj hok
        rw [← h1]
        exact ⟨rfl, rfl⟩

/-- Witness for claim C6: the OPENSENT connection with configured hold 9
receiving the hold-9 OPEN ends with the 1-second keepalive running. -/
theorem C6_keepalive_period_amended_witness :
    BGP.handle_open connSent9 openMsg9 = .ok c6res ∧
    c6res.keepalive_running = true ∧ c6res.keepalive_interval = some 1 := by
  have h := C6_keepalive_period_amended connSent9 openMsg9 c6res rfl rfl
    (by decide)
  exact ⟨rfl, h.1, h.2⟩

/-- Claim C7: with configured hold time 3 and received hold time 0 the
negotiated hold time is 0, yet the hold timer armed by connectionMade at
240 seconds stays armed - the code only skips resetting it, contradicting
the claim that no hold timer is armed when the negotiated value is 0. -/
theorem C7_hold_timer_counterexample :
    ((BGP.connectionMade (BGP.init 65100 3 167772162)).bind
        (fun c1 => BGP.handle_open c1 openMsg0)).map
      (fun c => (c.hold_time, c.hold_timer, c.keepalive_running)) =
      .ok (0, some 240, false) ∧
    (some 240 : Option Nat) ≠ none :=
  ⟨rfl, by decide⟩

/-- Claim C7 (amended): after handle_open in OpenSent the hold time is the
minimum of the configured and the received values; when that minimum is 0
the keepalive timer is not started and the hold timer is left exactly as
it was (in particular the 240-second timer from connectionMade stays
armed); when it is positive the keepalive period is 1 second, hence at
least 1 second. -/
theorem C7_negotiated_hold_amended (c : BGPConn) (msg : List Nat)
    (parsed : Open.T) (c1 : BGPConn)
    (hstate : c.state = .OPENSENT)
    (hu : Open.unpack msg = .ok parsed)
    (hok : BGP.handle_open c msg = .ok c1) :
    c1.hold_time = min c.hold_time parsed.hold_time ∧
    (c1.hold_time = 0 → c1.keepalive_running = c.keepalive_running ∧
      c1.keepalive_interval = c.keepalive_interval ∧
      c1.hold_timer = c.hold_timer) ∧
    (c1.hold_time ≠ 0 → c1.keepalive_running = true ∧
      ∃ p, c1.keepalive_interval = some p ∧ 1 ≤ p) := by
  by_cases hmin : min c.hold_time parsed.hold_time = 0
  · rw [handle_open_opensent_zero c msg parsed hstate hu hmin] at hok
    have h1 := Except.ok.inj hok
    rw [← h1]
    refine ⟨hmin.symm, fun _ => ⟨rfl, rfl, rfl⟩, fun h => absurd rfl h⟩
  · cases htimer : c.hold_timer with
    | none =>
      rw [handle_open_opensent_pos_noneTimer c msg parsed hstate hu hmin htimer]
        at hok
      exact absurd hok (by simp)
    | some d =>
      rw [handle_open_opensent_pos c msg parsed d hstate hu hmin htimer] at hok
      have h1 := Except.ok.inj hok
      rw [← h1]
      exact ⟨rfl, fun h => absurd h hmin, fun _ => ⟨rfl, 1, rfl, le_refl 1⟩⟩

/-- Witness for claim C7: the OPENSENT connection with configured hold 3
receiving the hold-0 OPEN negotiates 0 and keeps its 240-second hold
timer. -/
theorem C7_negotiated_hold_amended_witness :
    Open.unpack openMsg0 = .ok (Open.init 65000 0 167772161 []) ∧
    BGP.handle_open connSent3 openMsg0 = .ok c7res ∧
    c7res.hold_time = min connSent3.hold_time 0 ∧
    c7res.hold_timer = connSent3.hold_timer := by
  have h := C7_negotiated_hold_amended connSent3 openMsg0
    (Open.init 65000 0 167772161 []) c7res rfl rfl rfl
  exact ⟨rfl, rfl, h.1, (h.2.1 rfl).2.2⟩

/-- Each IP prefix field occupies 1 + ceil(bits / 8) octets. -/
theorem ipfield_len_eq (r : IPField.T) :
    IPField.len r = 1 + (r.length + 7) / 8 := by
  unfold IPField.len IPField.octects
  rw [number_octets_eq]
  omega

/-- The declared length of each recognized path attribute equals its
on-wire size from the spec. -/
theorem pathattr_len_eq (a : PathAttr) : PathAttr.len a = specAttrWireSize a := by
  cases a with
  | origin v =>
    show 2 + (if (64 : Nat) &&& 16 ≠ 0 then 2 else 1) + 1 = 4
    decide
  | asPath segs =>
    show 2 + (if (64 : Nat) &&& 16 ≠ 0 then 2 else 1) +
        (segs.map ASPathSegment.len).sum =
      3 + (segs.map (fun s => 2 + 2 * s.value.length)).sum
    rw [if_neg (by decide)]
    have h : segs.map ASPathSegment.len =
        segs.map (fun s => 2 + 2 * s.value.length) := rfl
    rw [h]
  | nextHop v =>
    show 2 + (if (64 : Nat) &&& 16 ≠ 0 then 2 else 1) + 4 = 7
    decide
  | med v =>
    show 2 + (if (128 : Nat) &&& 16 ≠ 0 then 2 else 1) + 4 = 7
    decide
  | localPref v =>
    show 2 + (if (64 : Nat) &&& 16 ≠ 0 then 2 else 1) + 4 = 7
    decide
  | atomicAggregate =>
    show 2 + (if (64 : Nat) &&& 16 ≠ 0 then 2 else 1) + 0 = 3
    decide
  | aggregator asn ip =>
    show 2 + (if (128 ||| 64 : Nat) &&& 16 ≠ 0 then 2 else 1) + 6 = 9
    decide

/-- Claim C8: the declared length of every UPDATE is 23 (the UPDATE
minimum) plus the summed on-wire sizes of its withdrawn routes (each
1 + ceil(bits / 8) octets), its path attributes (their spec on-wire
sizes), and its NLRI prefixes - the full sum, not merely the base
length. -/
theorem C8_update_len_full_sum (u : Update.T) :
    Update.len u =
      23 + (u.wd_routes.map (fun r => 1 + (r.length + 7) / 8)).sum +
        (u.path_attr.map specAttrWireSize).sum +
        (u.nlris.map (fun r => 1 + (r.length + 7) / 8)).sum := by
  have e1 : IPField.len = (fun r : IPField.T => 1 + (r.length + 7) / 8) :=
    funext ipfield_len_eq
  have e2 : PathAttr.len = specAttrWireSize := funext pathattr_len_eq
  unfold Update.len Update.MIN_LEN
  rw [e1, e2]

/-- Claim C9: for every 16-bit AS number and 32-bit address,
Aggregator(asn, ip).pack() is exactly flags 0xC0 (OPTIONAL or-ed with
TRANSITIVE), type code 7, one length octet 6, the AS as a big-endian u16
and the address as a big-endian u32: the overridden _value_pack never
consults the corrupted composite value attribute. -/
theorem C9_aggregator_pack_exact (asn ip : Nat) (h1 : asn < 65536)
    (h2 : ip < 4294967296) :
    PathAttr.pack (.aggregator asn ip) =
      .ok ([192, 7, 6] ++ u16be asn ++ u32be ip) := by
  have hor : (128 ||| 64 : Nat) = 192 := by decide
  have hand : (192 : Nat) &&& 16 = 0 := by decide
  simp only [PathAttr.pack, PathAttr.flags, PathAttr.type_code,
    PathAttr.lengthFun, PathAttr.value_pack, Flag.OPTIONAL, Flag.TRANSITIVE,
    Flag.EXTEND_LENGTH, hor, hand]
  norm_num
  rw [if_pos ⟨h1, h2⟩]
  rfl

/-- Witness for claim C9: AGGREGATOR(65100, 30.0.1.1) packs to
C0 07 06 FE4C 1E000101, the bytes of scenario S5. -/
theorem C9_aggregator_pack_exact_witness :
    65100 < 65536 ∧ 503316737 < 4294967296 ∧
    PathAttr.pack (.aggregator 65100 503316737) =
      .ok [192, 7, 6, 254, 76, 30, 0, 1, 1] := by
  refine ⟨by norm_num, by norm_num, ?_⟩
  rw [C9_aggregator_pack_exact 65100 503316737 (by norm_num) (by norm_num)]
  rfl

/-- Claim C10: when handle_open runs in any state other than OPENSENT and
the OPEN parses, the connection record - state, peer status, hold time,
both timers, buffer and transport output - is returned unchanged. -/
theorem C10_handle_open_frame_effect (c : BGPConn) (msg : List Nat)
    (parsed : Open.T)
    (hstate : c.state ≠ .OPENSENT)
    (hu : Open.unpack msg = .ok parsed) :
    BGP.handle_open c msg = .ok c := by
  unfold BGP.handle_open
  rw [hu]
  dsimp only
  rw [if_neg hstate]

/-- Witness for claim C10: a freshly initialized connection (in ACTIVE)
receiving a valid OPEN is left untouched. -/
theorem C10_handle_open_frame_effect_witness :
    (BGP.init 65100 3 167772162).state ≠ .OPENSENT ∧
    Open.unpack openMsg9 = .ok (Open.init 65000 9 167772161 []) ∧
    BGP.handle_open (BGP.init 65100 3 167772162) openMsg9 =
      .ok (BGP.init 65100 3 167772162) :=
  ⟨by decide, rfl,
    C10_handle_open_frame_effect (BGP.init 65100 3 167772162) openMsg9
      (Open.init 65000 9 167772161 []) (by decide) rfl⟩

end PyBGP
